import Mathlib

/-!
Verification development for the vehicle-tracking RabbitMQ broker repository.

The repository's messaging client layer is shallowly embedded below:

* `ConnModule`, `connectRabbitMQ`, `getChannel`, `onCloseEvent` embed the
  module-level connection state of `examples/backend/src/rabbitmq/connection.ts`.
* `Command`, `routingKey`, `publishCommand` embed
  `examples/backend/src/rabbitmq/publisher.ts`; a publish call is represented
  by the list of effects it performs together with its outcome, so that the
  absence or presence of validation and wire writes is directly observable.
* `backendOnMessage` embeds the consume callback of
  `examples/backend/src/rabbitmq/consumer.ts` (`startConsumers`), and
  `vdcOnMessage` / `onHandlerFailure` embed `VehicleDataConsumer.consumeQueue`
  of the advanced example client, including its `x-retry-count` escalation.
* `VDCConfig`, `connectAttempt`, `handleReconnect`, `runFailures` embed the
  reconnection supervisor of `VehicleDataConsumer` (`connect`,
  `handleReconnect`), with `process.exit(1)` modelled as the absorbing
  `exited` flag.
* `ChanOp`, `effectiveBudget`, `flowStep` embed the channel set-up sequences
  of both consumers and the broker's prefetch flow control.
-/

deriving instance DecidableEq for Except

namespace GpsBroker

/-! ## Small self-contained list/string helpers -/

theorem strDataAppend (a b : String) : (a ++ b).data = a.data ++ b.data := by
  cases a
  cases b
  rfl

theorem listAppendCancel {α : Type} (as : List α) {bs cs : List α}
    (h : as ++ bs = as ++ cs) : bs = cs := by
  induction as with
  | nil => simpa using h
  | cons a t ih =>
    simp only [List.cons_append, List.cons.injEq] at h
    exact ih h.2

theorem getElemAppendLeft {α : Type} :
    ∀ (l₁ l₂ : List α) (n : Nat), n < l₁.length → (l₁ ++ l₂)[n]? = l₁[n]? := by
  intro l₁
  induction l₁ with
  | nil =>
    intro l₂ n h
    simp at h
  | cons a t ih =>
    intro l₂ n h
    cases n with
    | zero => simp
    | succ k =>
      simp only [List.cons_append, List.getElem?_cons_succ]
      exact ih l₂ k (by simpa using h)

/-! ## connection.ts: module-level connection / channel state

`connection` and `channel` are module-level nullable variables.  The amqplib
connection and channel objects are represented by `Nat` identities, so that
"returns the existing pair" and "opens a fresh connection" are observable.
-/

structure ConnModule where
  connection : Option Nat
  channel : Option Nat
deriving DecidableEq

/-- `connectRabbitMQ(url)`.  The `Bool` component records whether
`amqp.connect` was invoked (a new broker connection opened).  `newConn` and
`newChan` stand for the objects a fresh `amqp.connect` / `createChannel`
would return. -/
def connectRabbitMQ (newConn newChan : Nat) (st : ConnModule) :
    ConnModule × (Option Nat × Option Nat) × Bool :=
  match st.connection, st.channel with
  | some c, some ch => (st, (some c, some ch), false)
  | _, _ =>
    (⟨some newConn, some newChan⟩, (some newConn, some newChan), true)

/-- The `connection.on("close", ...)` handler: resets both module variables
to `null`. -/
def onCloseEvent (_st : ConnModule) : ConnModule := ⟨none, none⟩

/-- Error vocabulary of the publish path.  `schemaValidation` is the
spec's `SchemaValidationError`; it is part of the vocabulary so that its
absence from the code's behaviour is expressible. -/
inductive PubError
  | notConnected
  | schemaValidation
deriving DecidableEq

/-- `getChannel()`: throws when the module channel is `null`. -/
def getChannel (st : ConnModule) : Except PubError Nat :=
  match st.channel with
  | none => .error .notConnected
  | some ch => .ok ch

/-! ## publisher.ts: `publishCommand` -/

/-- The literal union type `"start_rent" | "end_rent" | "kill_vehicle"`. -/
inductive Command
  | start_rent
  | end_rent
  | kill_vehicle
deriving DecidableEq

def cmdName : Command → String
  | .start_rent => "start_rent"
  | .end_rent => "end_rent"
  | .kill_vehicle => "kill_vehicle"

/-- The routing key template `` `control.${command}.${vehicle_id}` ``. -/
def routingKey (cmd : Command) (vehicle_id : String) : String :=
  "control." ++ cmdName cmd ++ "." ++ vehicle_id

/-- A `channel.publish(exchange, routingKey, buffer)` call.  `payloadFields`
lists the fields of the JSON object serialized into the buffer; `headers`
are the AMQP message headers attached to the publication (the code passes
no publish options, so they are empty). -/
structure WireWrite where
  exchange : String
  key : String
  payloadFields : List String
  headers : List (String × Nat)
deriving DecidableEq

inductive PubEffect
  | validate (fields : List String)
  | wireWrite (w : WireWrite)
  | log
deriving DecidableEq

/-- The fields of the object `{ vehicle_id, timestamp }` built by
`publishCommand`. -/
def messageFields : List String := ["vehicle_id", "timestamp"]

/-- `publishCommand(command, vehicle_id)`: the effects performed, in order,
paired with the call's outcome.  `getChannel` throws before anything else
when the channel is not established, so the effect list is empty then. -/
def publishCommand (st : ConnModule) (cmd : Command) (vid : String) :
    List PubEffect × Except PubError Unit :=
  match getChannel st with
  | .error e => ([], .error e)
  | .ok _ =>
    ([.wireWrite ⟨"vehicle.exchange", routingKey cmd vid, messageFields, []⟩,
      .log], .ok ())

def isValidateEffect : PubEffect → Bool
  | .validate _ => true
  | _ => false

def isWireWriteEffect : PubEffect → Bool
  | .wireWrite _ => true
  | _ => false

def hasValidate (tr : List PubEffect) : Bool := tr.any isValidateEffect

def hasWireWrite (tr : List PubEffect) : Bool := tr.any isWireWriteEffect

/-- Spec-side validity of an entity id: non-empty and free of the topic-key
separator `'.'`. -/
def validEntityId (v : String) : Prop := v ≠ "" ∧ '.' ∉ v.data

instance (v : String) : Decidable (validEntityId v) := by
  unfold validEntityId
  infer_instance

/-! ## index.ts: the `/api/control/:command` route -/

inductive HttpRes
  | okJson (command vehicle_id : String)
  | badRequest (msg : String)
deriving DecidableEq

def validCommands : List String := ["start_rent", "end_rent", "kill_vehicle"]

/-- The POST `/api/control/:command` handler.  The `Bool` records whether
`publishCommand` was reached.  `vehicle_id = none` models an absent body
field; JavaScript's `!vehicle_id` is also true for the empty string. -/
def controlRoute (command : String) (vehicle_id : Option String) :
    HttpRes × Bool :=
  match vehicle_id with
  | none => (.badRequest "Missing vehicle_id", false)
  | some v =>
    if v = "" then (.badRequest "Missing vehicle_id", false)
    else if validCommands.contains command then (.okJson command v, true)
    else (.badRequest "Invalid command", false)

/-! ## Consumer message handling

Message content is represented abstractly by whether `JSON.parse` of the
buffer succeeds; the decoded value is a `Payload` carrying the
`vehicle_id` field the callbacks read. -/

structure Payload where
  vehicle_id : String
deriving DecidableEq

inductive Content
  | wellFormed (p : Payload)
  | malformed
deriving DecidableEq

inductive JsError
  | parseError
  | handlerError
deriving DecidableEq

/-- `JSON.parse(msg.content.toString())`: throws `SyntaxError` on malformed
content. -/
def parseJson : Content → Except JsError Payload
  | .wellFormed p => .ok p
  | .malformed => .error .parseError

structure MsgProperties where
  headers : List (String × Nat)
deriving DecidableEq

/-- A delivered AMQP message: its mutable `properties.headers` and its
content buffer. -/
structure Msg where
  properties : MsgProperties
  content : Content
deriving DecidableEq

/-- JavaScript object property access `headers[key]` on the headers object. -/
def headerLookup : List (String × Nat) → String → Option Nat
  | [], _ => none
  | (k, v) :: rest, key => if k = key then some v else headerLookup rest key

/-- `(msg.properties.headers?.['x-retry-count'] || 0) as number`. -/
def retryCountOf (m : Msg) : Nat :=
  (headerLookup m.properties.headers "x-retry-count").getD 0

/-- `msg.properties.headers = { ...msg.properties.headers, 'x-retry-count': n }`:
replaces the `x-retry-count` entry, keeping the rest. -/
def setRetryCount (m : Msg) (n : Nat) : Msg :=
  { m with
    properties :=
      ⟨("x-retry-count", n) ::
        m.properties.headers.filter (fun p => ¬p.1 = "x-retry-count")⟩ }

/-- Outcome of the `catch` block of `VehicleDataConsumer.consumeQueue`:
either `nack(msg, false, true)` on the mutated message (requeue) or
`nack(msg, false, false)` (dead-letter). -/
inductive FailAction
  | requeue (m : Msg)
  | deadLetter (m : Msg)
deriving DecidableEq

def isRequeue : FailAction → Bool
  | .requeue _ => true
  | .deadLetter _ => false

/-- The retry escalation of `consumeQueue`'s catch block (part_001,
lines 222-235): requeue with `x-retry-count + 1` while the count is below
the hard-coded ceiling 3, otherwise dead-letter. -/
def onHandlerFailure (m : Msg) : FailAction :=
  let retryCount := retryCountOf m
  if retryCount < 3 then .requeue (setRetryCount m (retryCount + 1))
  else .deadLetter m

/-- Calls the consume callback issues on the channel. -/
inductive ChannelAction
  | ack (m : Msg)
  | nack (m : Msg) (allUpTo requeue : Bool)
deriving DecidableEq

/-- The consume callback of `VehicleDataConsumer.consumeQueue`: the whole
body is wrapped in `try`/`catch`, the catch block applying the retry
escalation.  The result is the list of channel calls made; an uncaught
exception would instead be an `Except.error`, which this callback never
produces. -/
def vdcOnMessage (handler : Payload → Except JsError Unit) (msg : Option Msg) :
    Except JsError (List ChannelAction) :=
  match msg with
  | none => .ok []
  | some m =>
    match (parseJson m.content).bind handler with
    | .ok _ => .ok [.ack m]
    | .error _ =>
      match onHandlerFailure m with
      | .requeue m' => .ok [.nack m' false true]
      | .deadLetter m' => .ok [.nack m' false false]

/-- The in-memory store `memoryData[type][vehicle_id] = data` of the
backend consumer, as an association list updated by shadowing. -/
abbrev MemoryData := List (String × String × Payload)

/-- `queue.split(".").slice(-1)[0]`. -/
def lastComponent (q : String) : String := (q.splitOn ".").getLastD ""

/-- The consume callback of `startConsumers` in
`examples/backend/src/rabbitmq/consumer.ts`: no `try`/`catch`, so a parse
failure escapes the callback as an `Except.error`. -/
def backendOnMessage (store : MemoryData) (queue : String) (msg : Option Msg) :
    Except JsError (MemoryData × List ChannelAction) :=
  match msg with
  | none => .ok (store, [])
  | some m =>
    match parseJson m.content with
    | .error e => .error e
    | .ok data =>
      .ok ((lastComponent queue, data.vehicle_id, data) :: store, [.ack m])

/-- The message published by `publishCommand`: `{ vehicle_id, timestamp }`
sent with no publish options, hence empty headers. -/
def publishedMessage (vid : String) : Msg :=
  ⟨⟨[]⟩, .wellFormed ⟨vid⟩⟩

/-! ## Channel set-up and the broker's prefetch flow control -/

inductive ChanOp
  | createChannel
  | setPrefetch (n : Nat)
  | consume (queue : String)
deriving DecidableEq

/-- Channel set-up performed by `connectRabbitMQ` + `startConsumers` of the
backend example: a channel is created and five queues consumed; no prefetch
is ever set. -/
def backendSetupOps : List ChanOp :=
  [.createChannel,
   .consume "vehicle.realtime.location",
   .consume "vehicle.realtime.status",
   .consume "vehicle.realtime.battery",
   .consume "vehicle.report.maintenance",
   .consume "vehicle.report.performance"]

/-- JavaScript `x || d` on an optional number: `0` and `undefined` both
fall back to the default. -/
def jsOrNat (o : Option Nat) (d : Nat) : Nat :=
  match o with
  | none => d
  | some n => if n = 0 then d else n

/-- The resolved configuration of `VehicleDataConsumer`'s constructor. -/
structure VDCConfig where
  prefetch : Nat
  maxReconnectAttempts : Nat
  reconnectDelay : Nat
deriving DecidableEq

/-- `config.prefetch || 10`, `config.reconnectAttempts || 5`,
`config.reconnectDelay || 5000`. -/
def mkConfig (prefetch reconnectAttempts reconnectDelay : Option Nat) :
    VDCConfig :=
  ⟨jsOrNat prefetch 10, jsOrNat reconnectAttempts 5,
   jsOrNat reconnectDelay 5000⟩

/-- Channel set-up performed by `VehicleDataConsumer.connect`:
`createChannel` then `channel.prefetch(this.prefetch)`. -/
def vdcConnectOps (cfg : VDCConfig) : List ChanOp :=
  [.createChannel, .setPrefetch cfg.prefetch]

/-- The prefetch ceiling a channel ends up with after its set-up sequence
(`none` when no prefetch was ever requested). -/
def effectiveBudget (ops : List ChanOp) : Option Nat :=
  ops.foldl
    (fun b op =>
      match op with
      | .setPrefetch n => some n
      | _ => b)
    none

inductive BrokerEv
  | deliver
  | ackOne
deriving DecidableEq

/-- Modelled from the spec: the external broker's flow-control capability
(§6 "Broker transport capability", §4.5).  The broker delivers a further
message only while the channel's unacknowledged count is below its prefetch
ceiling; with no ceiling it delivers unconditionally.  The enforcement
itself lives in the broker, outside this repository's sources. -/
def flowStep (budget : Option Nat) (unacked : Nat) : BrokerEv → Nat
  | .deliver =>
    match budget with
    | none => unacked + 1
    | some p => if unacked < p then unacked + 1 else unacked
  | .ackOne => unacked - 1

/-- Unacknowledged in-flight count after a sequence of broker events,
starting from zero. -/
def unackedAfter (budget : Option Nat) (evs : List BrokerEv) : Nat :=
  evs.foldl (flowStep budget) 0

/-! ## The reconnection supervisor of `VehicleDataConsumer` -/

structure VDCState where
  isConnected : Bool
  reconnectAttempts : Nat
  exited : Bool
deriving DecidableEq

def initialState : VDCState := ⟨false, 0, false⟩

/-- `handleReconnect()`: exits the process once
`reconnectAttempts >= maxReconnectAttempts`, otherwise increments the
counter and schedules one reconnect after the fixed `reconnectDelay`.  The
second component is the scheduled delay (`none` when the process exits). -/
def handleReconnect (cfg : VDCConfig) (s : VDCState) : VDCState × Option Nat :=
  if cfg.maxReconnectAttempts ≤ s.reconnectAttempts then
    ({ s with exited := true }, none)
  else
    ({ s with reconnectAttempts := s.reconnectAttempts + 1 },
     some cfg.reconnectDelay)

/-- One `connect()` call and its outcome: success sets `isConnected` and
resets the attempt counter to zero; failure is caught and routed to
`handleReconnect`.  Nothing runs once the process has exited. -/
def connectAttempt (cfg : VDCConfig) (ok : Bool) (s : VDCState) :
    VDCState × Option Nat :=
  if s.exited then (s, none)
  else if ok then
    ({ s with isConnected := true, reconnectAttempts := 0 }, none)
  else handleReconnect cfg s

/-- The `connection.on('close'|'error')` handlers: mark disconnected, then
`handleReconnect`. -/
def connectionLost (cfg : VDCConfig) (s : VDCState) : VDCState × Option Nat :=
  if s.exited then (s, none)
  else handleReconnect cfg { s with isConnected := false }

/-- `n` consecutive failing `connect()` calls; collects the delays of the
reconnects they schedule. -/
def runFailures (cfg : VDCConfig) : Nat → VDCState → VDCState × List Nat
  | 0, s => (s, [])
  | n + 1, s =>
    let step := connectAttempt cfg false s
    let rest := runFailures cfg n step.1
    (rest.1, step.2.toList ++ rest.2)

/-! ## Topic-key lemmas -/

def cmdChar : Command → Char
  | .start_rent => 's'
  | .end_rent => 'e'
  | .kill_vehicle => 'k'

theorem routingKey_data (c : Command) (v : String) :
    (routingKey c v).data = ("control." ++ cmdName c ++ ".").data ++ v.data := by
  cases c <;> simp [routingKey, cmdName, strDataAppend, List.append_assoc]

theorem routingKey_char8 (c : Command) (v : String) :
    (routingKey c v).data[8]? = some (cmdChar c) := by
  rw [routingKey_data, getElemAppendLeft _ _ 8 (by cases c <;> decide)]
  cases c <;> decide

theorem routingKey_inj (c₁ c₂ : Command) (v₁ v₂ : String)
    (h : routingKey c₁ v₁ = routingKey c₂ v₂) : c₁ = c₂ ∧ v₁ = v₂ := by
  have h8 : some (cmdChar c₁) = some (cmdChar c₂) := by
    rw [← routingKey_char8 c₁ v₁, ← routingKey_char8 c₂ v₂, h]
  have hc : c₁ = c₂ := by
    cases c₁ <;> cases c₂ <;> first | rfl | (exact absurd h8 (by decide))
  subst hc
  refine ⟨rfl, ?_⟩
  have hd := congrArg String.data h
  rw [routingKey_data, routingKey_data] at hd
  have hv := listAppendCancel _ hd
  cases v₁
  cases v₂
  exact congrArg String.mk hv

/-! ## Supervisor lemmas -/

theorem runFailures_exited (cfg : VDCConfig) :
    ∀ (n : Nat) (s : VDCState), s.exited = true →
      runFailures cfg n s = (s, []) := by
  intro n
  induction n with
  | zero => intro s h; rfl
  | succ k ih =>
    intro s h
    simp only [runFailures, connectAttempt, h, if_true]
    simpa using ih s h

theorem connectAttempt_false_delay (cfg : VDCConfig) (s : VDCState) :
    (connectAttempt cfg false s).2 = none ∨
      (connectAttempt cfg false s).2 = some cfg.reconnectDelay := by
  simp only [connectAttempt, handleReconnect]
  split
  · exact Or.inl rfl
  · split
    · simp
    · split
      · exact Or.inl rfl
      · exact Or.inr rfl

theorem runFailures_exit (cfg : VDCConfig) :
    ∀ (n : Nat) (s : VDCState), s.exited = false →
      s.reconnectAttempts ≤ cfg.maxReconnectAttempts →
      cfg.maxReconnectAttempts < s.reconnectAttempts + n →
      ((runFailures cfg n s).1).exited = true := by
  intro n
  induction n with
  | zero =>
    intro s h1 h2 h3
    omega
  | succ k ih =>
    intro s h1 h2 h3
    by_cases hm : cfg.maxReconnectAttempts ≤ s.reconnectAttempts
    · have hstep :
          connectAttempt cfg false s = ({ s with exited := true }, none) := by
        simp [connectAttempt, handleReconnect, h1, hm]
      simp only [runFailures, hstep]
      rw [runFailures_exited cfg k { s with exited := true } rfl]
    · have hstep :
          connectAttempt cfg false s =
            ({ s with reconnectAttempts := s.reconnectAttempts + 1 },
             some cfg.reconnectDelay) := by
        simp [connectAttempt, handleReconnect, h1, hm]
      simp only [runFailures, hstep]
      exact ih { s with reconnectAttempts := s.reconnectAttempts + 1 }
        h1 (by simp; omega) (by simp; omega)

/-! ## Claim theorems -/

/-- Claim C1: for a delivered message whose handler fails, the escalation
decision of `VehicleDataConsumer.consumeQueue` is a pure function of the
`x-retry-count` delivery attempt count and the ceiling 3 (the default
`maxRetries`): below the ceiling the message is requeued with the count
incremented by exactly 1 in the redelivered message's headers, otherwise it
is dead-lettered; the count starts at 0 on messages built by
`publishCommand`, which publishes without headers. -/
theorem retry_escalation_policy (m m' : Msg) (st : ConnModule)
    (cmd : Command) (vid : String) (hch : st.channel.isSome = true) :
    (retryCountOf m < 3 →
      onHandlerFailure m = .requeue (setRetryCount m (retryCountOf m + 1)) ∧
      retryCountOf (setRetryCount m (retryCountOf m + 1)) =
        retryCountOf m + 1) ∧
    (3 ≤ retryCountOf m → onHandlerFailure m = .deadLetter m) ∧
    (retryCountOf m = retryCountOf m' →
      isRequeue (onHandlerFailure m) = isRequeue (onHandlerFailure m')) ∧
    retryCountOf (publishedMessage vid) = 0 ∧
    (publishCommand st cmd vid).1 =
      [.wireWrite ⟨"vehicle.exchange", routingKey cmd vid, messageFields, []⟩,
       .log] := by
  refine ⟨?_, ?_, ?_, ?_, ?_⟩
  · intro h
    constructor
    · simp [onHandlerFailure, h]
    · simp [retryCountOf, setRetryCount, headerLookup]
  · intro h
    simp [onHandlerFailure, Nat.not_lt_of_le h]
  · intro h
    simp only [onHandlerFailure, ← h]
    by_cases hlt : retryCountOf m < 3
    · simp [hlt, isRequeue]
    · simp [hlt, isRequeue]
  · rfl
  · match hc : st.channel with
    | none => rw [hc] at hch; simp at hch
    | some ch => simp [publishCommand, getChannel, hc]

/-- Witness for C1: the policy evaluated on a message with retry count 1
(requeued as 2) and on the published message (count 0). -/
theorem retry_escalation_policy_witness :
    retryCountOf ⟨⟨[("x-retry-count", 1)]⟩, .malformed⟩ < 3 ∧
    (⟨some 0, some 0⟩ : ConnModule).channel.isSome = true ∧
    onHandlerFailure ⟨⟨[("x-retry-count", 1)]⟩, .malformed⟩ =
      .requeue (setRetryCount ⟨⟨[("x-retry-count", 1)]⟩, .malformed⟩ 2) ∧
    retryCountOf (publishedMessage "VH-1") = 0 :=
  have h := retry_escalation_policy ⟨⟨[("x-retry-count", 1)]⟩, .malformed⟩
    ⟨⟨[]⟩, .malformed⟩ ⟨some 0, some 0⟩ .start_rent "VH-1" rfl
  ⟨by decide, rfl, (h.1 (by decide)).1, h.2.2.2.1⟩

/-- Claim C2: the topic key derived at publish time is exactly
`<category>.<stream-name>.<entity-id>`, and the derivation is a
deterministic and injective function of the (command, vehicle id) pair. -/
theorem topic_key_deterministic_injective (c₁ c₂ : Command) (v₁ v₂ : String)
    (_hv₁ : validEntityId v₁) (_hv₂ : validEntityId v₂) :
    (routingKey c₁ v₁ = routingKey c₂ v₂ ↔ c₁ = c₂ ∧ v₁ = v₂) ∧
    routingKey c₁ v₁ = "control." ++ cmdName c₁ ++ "." ++ v₁ := by
  refine ⟨⟨routingKey_inj c₁ c₂ v₁ v₂, ?_⟩, rfl⟩
  rintro ⟨rfl, rfl⟩
  rfl

/-- Witness for C2 at the pair (`start_rent`, `"VH-1"`). -/
theorem topic_key_deterministic_injective_witness :
    validEntityId "VH-1" ∧
    routingKey .start_rent "VH-1" = "control.start_rent.VH-1" :=
  ⟨by decide,
   by
    have h := topic_key_deterministic_injective .start_rent .start_rent
      "VH-1" "VH-1" (by decide) (by decide)
    rw [h.2]
    decide⟩

/-- Claim C3: a publish call made while the channel is not established
fails immediately with the not-connected error and performs no wire
write (its effect list is empty). -/
theorem publish_not_ready_fails (st : ConnModule) (cmd : Command)
    (vid : String) (h : st.channel = none) :
    publishCommand st cmd vid = ([], .error .notConnected) := by
  simp [publishCommand, getChannel, h]

/-- Witness for C3: publishing on the pristine module state. -/
theorem publish_not_ready_fails_witness :
    (⟨none, none⟩ : ConnModule).channel = none ∧
    publishCommand ⟨none, none⟩ .start_rent "VH-1" =
      ([], .error .notConnected) :=
  ⟨rfl, publish_not_ready_fails ⟨none, none⟩ .start_rent "VH-1" rfl⟩

/-- Claim C10: `connectRabbitMQ` is idempotent while connected — when both
module variables are non-null it returns the existing pair unchanged and
opens no new connection; after the `close` event resets them, a subsequent
call establishes a fresh connection. -/
theorem connectRabbitMQ_idempotent (st : ConnModule) (c ch newConn newChan : Nat)
    (h₁ : st.connection = some c) (h₂ : st.channel = some ch) :
    connectRabbitMQ newConn newChan st = (st, (some c, some ch), false) ∧
    connectRabbitMQ newConn newChan (onCloseEvent st) =
      (⟨some newConn, some newChan⟩, (some newConn, some newChan), true) := by
  constructor
  · simp [connectRabbitMQ, h₁, h₂]
  · rfl

/-- Witness for C10 on a connected module state. -/
theorem connectRabbitMQ_idempotent_witness :
    (⟨some 7, some 8⟩ : ConnModule).connection = some 7 ∧
    (⟨some 7, some 8⟩ : ConnModule).channel = some 8 ∧
    connectRabbitMQ 1 2 ⟨some 7, some 8⟩ =
      (⟨some 7, some 8⟩, (some 7, some 8), false) :=
  ⟨rfl, rfl,
   (connectRabbitMQ_idempotent ⟨some 7, some 8⟩ 7 8 1 2 rfl rfl).1⟩

/-- The flow-control fold never exceeds the prefetch ceiling. -/
theorem foldlFlow_le (p : Nat) :
    ∀ (evs : List BrokerEv) (n : Nat), n ≤ p →
      evs.foldl (flowStep (some p)) n ≤ p := by
  intro evs
  induction evs with
  | nil => intro n h; simpa using h
  | cons e rest ih =>
    intro n h
    simp only [List.foldl_cons]
    apply ih
    cases e with
    | deliver =>
      simp only [flowStep]
      split <;> omega
    | ackOne =>
      simp only [flowStep]
      omega

/-- Counterexample to Claim C4: five consecutive failed reconnection
attempts of `VehicleDataConsumer` (default configuration) are all scheduled
after the same constant 5000 ms delay — the delay before attempt 2 equals
the delay before attempt 1 and is not that delay multiplied by 2. -/
theorem reconnect_delay_not_multiplied :
    (runFailures (mkConfig none none none) 5 initialState).2 =
      [5000, 5000, 5000, 5000, 5000] ∧
    (runFailures (mkConfig none none none) 5 initialState).2.getD 1 0 =
      (runFailures (mkConfig none none none) 5 initialState).2.getD 0 0 ∧
    ¬((runFailures (mkConfig none none none) 5 initialState).2.getD 1 0 =
      (runFailures (mkConfig none none none) 5 initialState).2.getD 0 0 * 2) := by
  decide

/-- Claim C4 as amended: the delay before every scheduled reconnection
attempt is the constant configured `reconnectDelay` (default 5000 ms);
no multiplier or `maxDelay` cap is applied. -/
theorem reconnect_delay_constant (cfg : VDCConfig) (n : Nat) (s : VDCState)
    (d : Nat) (hd : d ∈ (runFailures cfg n s).2) : d = cfg.reconnectDelay := by
  induction n generalizing s with
  | zero => simp [runFailures] at hd
  | succ k ih =>
    simp only [runFailures] at hd
    rcases List.mem_append.mp hd with h | h
    · rcases connectAttempt_false_delay cfg s with hc | hc
      · rw [hc] at h
        simp at h
      · rw [hc] at h
        simpa using h
    · exact ih _ h

/-- Witness for the amended C4: the single delay scheduled by one failed
attempt under the default configuration is the constant 5000 ms. -/
theorem reconnect_delay_constant_witness :
    5000 ∈ (runFailures (mkConfig none none none) 1 initialState).2 ∧
    5000 = (mkConfig none none none).reconnectDelay :=
  ⟨by decide,
   reconnect_delay_constant (mkConfig none none none) 1 initialState 5000
     (by decide)⟩

/-- Claim C5: after `maxReconnectAttempts` consecutive failed reconnection
attempts the supervisor terminates the process (`process.exit(1)`,
modelled as the absorbing `exited` state, after which nothing further is
scheduled); a successful `connect()` resets the consecutive-failure counter
to zero. -/
theorem supervisor_gives_up_and_resets (cfg : VDCConfig) (s : VDCState)
    (hex : s.exited = false) :
    ((runFailures cfg (cfg.maxReconnectAttempts + 1) initialState).1).exited
        = true ∧
    ((connectAttempt cfg true s).1.reconnectAttempts = 0 ∧
      (connectAttempt cfg true s).1.isConnected = true) ∧
    (∀ (s' : VDCState) (ok : Bool), s'.exited = true →
      connectAttempt cfg ok s' = (s', none)) := by
  refine ⟨?_, ?_, ?_⟩
  · exact runFailures_exit cfg (cfg.maxReconnectAttempts + 1) initialState
      rfl (Nat.zero_le _) (by omega)
  · simp [connectAttempt, hex]
  · intro s' ok h
    simp [connectAttempt, h]

/-- Witness for C5 at the default configuration: six consecutive failures
(the initial connect plus five retries) terminate the process, and a
successful connect from the fresh state resets the counter. -/
theorem supervisor_gives_up_and_resets_witness :
    initialState.exited = false ∧
    ((runFailures (mkConfig none none none) 6 initialState).1).exited = true ∧
    (connectAttempt (mkConfig none none none) true initialState).1.reconnectAttempts
      = 0 :=
  have h := supervisor_gives_up_and_resets (mkConfig none none none)
    initialState rfl
  ⟨rfl, h.1, h.2.1.1⟩

/-- Counterexample to Claim C6: the backend example's channel set-up
(`connectRabbitMQ` + `startConsumers`) never requests a prefetch ceiling,
so the broker delivers without bound — eleven deliveries leave eleven
unacknowledged in-flight messages, exceeding the 10-message default budget
of the configured consumer class. -/
theorem backend_consumer_no_budget :
    effectiveBudget backendSetupOps = none ∧
    (mkConfig none none none).prefetch = 10 ∧
    unackedAfter (effectiveBudget backendSetupOps)
      (List.replicate 11 BrokerEv.deliver) = 11 := by
  decide

/-- Claim C6 as amended: `VehicleDataConsumer.connect` requests the
configured prefetch as its channel's flow-control budget, and under the
broker's prefetch enforcement the unacknowledged in-flight count never
exceeds that budget; the backend example's `startConsumers`, by contrast,
sets no budget at all. -/
theorem prefetch_budget_enforced (cfg : VDCConfig) (p : Nat)
    (evs : List BrokerEv) :
    effectiveBudget (vdcConnectOps cfg) = some cfg.prefetch ∧
    unackedAfter (some p) evs ≤ p ∧
    effectiveBudget backendSetupOps = none := by
  refine ⟨rfl, ?_, rfl⟩
  simpa [unackedAfter] using foldlFlow_le p evs 0 (Nat.zero_le p)

/-- Counterexample to Claim C7: a malformed payload delivered to the
backend example's consume callback makes `JSON.parse` throw, and the
callback has no `try`/`catch` — the error escapes the dispatch loop
instead of being treated as handler failure. -/
theorem backend_parse_error_escapes :
    backendOnMessage [] "vehicle.realtime.location"
      (some ⟨⟨[]⟩, .malformed⟩) = .error .parseError := rfl

/-- Claim C7 as amended: in `VehicleDataConsumer.consumeQueue` every error
raised while processing a delivered message — payload parsing included —
is caught inside the loop and answered with an ack/nack decision, never
escaping the callback; the backend example's `startConsumers` callback
does not catch parse errors, which escape it. -/
theorem vdc_loop_absorbs_errors (handler : Payload → Except JsError Unit)
    (msg : Option Msg) :
    (∃ acts, vdcOnMessage handler msg = .ok acts) ∧
    backendOnMessage [] "vehicle.realtime.status"
      (some ⟨⟨[("x-retry-count", 2)]⟩, .malformed⟩) = .error .parseError := by
  constructor
  · cases msg with
    | none => exact ⟨[], rfl⟩
    | some m =>
      simp only [vdcOnMessage]
      cases hp : (parseJson m.content).bind handler with
      | ok a =>
        simp only [hp]
        exact ⟨_, rfl⟩
      | error a =>
        simp only [hp]
        cases hf : onHandlerFailure m with
        | requeue m' =>
          simp only [hf]
          exact ⟨_, rfl⟩
        | deadLetter m' =>
          simp only [hf]
          exact ⟨_, rfl⟩
  · rfl

/-- Counterexample to Claim C8: deriving a topic key for the entity id
`"a.b"` (which contains the separator) and for the empty entity id
succeeds and publishes — no `InvalidEntityId` failure exists in the
code. -/
theorem entity_id_with_separator_accepted :
    publishCommand ⟨some 0, some 0⟩ .start_rent "a.b" =
      ([.wireWrite ⟨"vehicle.exchange", "control.start_rent.a.b",
          messageFields, []⟩, .log], .ok ()) ∧
    publishCommand ⟨some 0, some 0⟩ .start_rent "" =
      ([.wireWrite ⟨"vehicle.exchange", "control.start_rent.",
          messageFields, []⟩, .log], .ok ()) := by
  constructor <;> decide

/-- Claim C8 as amended: key derivation performs no entity-id validation —
with an established channel, publishing succeeds for every entity id,
separator-containing and empty ids included; only the HTTP control route
rejects an absent or empty `vehicle_id`, with a 400 response produced
before `publishCommand` is reached. -/
theorem publish_accepts_all_entity_ids (st : ConnModule) (cmd : Command)
    (vid : String) (c : String) (h : st.channel.isSome = true) :
    (publishCommand st cmd vid).2 = .ok () ∧
    hasWireWrite (publishCommand st cmd vid).1 = true ∧
    controlRoute c none = (.badRequest "Missing vehicle_id", false) ∧
    controlRoute c (some "") = (.badRequest "Missing vehicle_id", false) := by
  match hc : st.channel with
  | none =>
    rw [hc] at h
    simp at h
  | some ch =>
    refine ⟨?_, ?_, rfl, ?_⟩
    · simp [publishCommand, getChannel, hc]
    · simp [publishCommand, getChannel, hc, hasWireWrite, isWireWriteEffect]
    · simp [controlRoute]

/-- Witness for the amended C8: a separator-containing entity id passes
through `publishCommand` unhindered on a connected state. -/
theorem publish_accepts_all_entity_ids_witness :
    (⟨some 0, some 0⟩ : ConnModule).channel.isSome = true ∧
    (publishCommand ⟨some 0, some 0⟩ .end_rent "x.y").2 = .ok () :=
  ⟨rfl,
   (publish_accepts_all_entity_ids ⟨some 0, some 0⟩ .end_rent "x.y"
     "end_rent" rfl).1⟩

/-- Counterexample to Claim C9: a publish call on a connected state
transmits immediately — its effect trace contains a wire write and no
validation step, and its outcome is success, not `SchemaValidationError`. -/
theorem publish_transmits_without_validation :
    publishCommand ⟨some 0, some 0⟩ .kill_vehicle "VH-9" =
      ([.wireWrite ⟨"vehicle.exchange", "control.kill_vehicle.VH-9",
          messageFields, []⟩, .log], .ok ()) ∧
    hasValidate (publishCommand ⟨some 0, some 0⟩ .kill_vehicle "VH-9").1
      = false ∧
    hasWireWrite (publishCommand ⟨some 0, some 0⟩ .kill_vehicle "VH-9").1
      = true := by
  decide

/-- Claim C9 as amended: `publishCommand` performs no payload validation
whatsoever — its effect trace never contains a validation step and its
outcome is never `SchemaValidationError`; it builds its own fixed
`{vehicle_id, timestamp}` payload, and its only failure mode is the
not-connected error raised before any write. -/
theorem publish_never_schema_validates (st : ConnModule) (cmd : Command)
    (vid : String) :
    hasValidate (publishCommand st cmd vid).1 = false ∧
    (publishCommand st cmd vid).2 ≠ .error .schemaValidation := by
  match hc : st.channel with
  | none => simp [publishCommand, getChannel, hc, hasValidate]
  | some ch =>
    simp [publishCommand, getChannel, hc, hasValidate, isValidateEffect]

end GpsBroker
